import Mathlib

/-!
# Verification of the ppterm terminal-gateway server

A shallow embedding of the server-side session multiplexer of the
`ppterm` repository (`ppterm-backend/src/server.js`, including the
`SSHSessionManager` module): the SSH connection pool, the remote
session registry and its persistence store, and the local/container
terminal registry together with the websocket message handlers.

JavaScript `Map` objects are modelled as association lists over
`String` keys; JavaScript strings are Lean `String`s; numbers used as
counters are `Int` (they can go negative in the source), sizes and
timestamps are `Nat`.  Asynchronous handlers are modelled as atomic
state transformations; events fired by the runtime (process exit,
idle-timer expiry, transport close) are separate operations.
-/

set_option autoImplicit false

namespace PPTerm

/-! ## Association lists standing for JavaScript `Map`s -/

/-- Lookup in an association list (first matching key), as `Map.get`. -/
def alookup {α : Type} (k : String) : List (String × α) → Option α
  | [] => none
  | (k', v) :: rest => if k' = k then some v else alookup k rest

/-- Insert or update, as `Map.set`: replaces the first entry with the
given key in place, otherwise appends. -/
def aset {α : Type} (k : String) (v : α) : List (String × α) → List (String × α)
  | [] => [(k, v)]
  | (k', v') :: rest => if k' = k then (k, v) :: rest else (k', v') :: aset k v rest

/-- Removal, as `Map.delete` (a JavaScript map has at most one entry
per key, so removing every matching entry is faithful). -/
def aerase {α : Type} (k : String) (l : List (String × α)) : List (String × α) :=
  l.filter (fun x => x.1 ≠ k)


/-! ## Decimal rendering of numbers

JavaScript template literals print the port with its usual decimal
representation; we embed that printing function and prove it injective
and colon-free, which is what the pool-key analysis needs. -/

/-- The character for a single decimal digit (`d < 10` in every use). -/
def digitChar : Nat → Char
  | 0 => '0' | 1 => '1' | 2 => '2' | 3 => '3' | 4 => '4'
  | 5 => '5' | 6 => '6' | 7 => '7' | 8 => '8' | 9 => '9'
  | _ => '*'

/-- Numeric value of a digit character. -/
def charVal (c : Char) : Nat := c.toNat - 48

/-- Digits of `n`, most significant first; `fuel` bounds the recursion
depth (`n ≤ fuel` suffices). -/
def natCharsAux : Nat → Nat → List Char
  | 0, _ => []
  | _ + 1, 0 => []
  | fuel + 1, n + 1 => natCharsAux fuel ((n + 1) / 10) ++ [digitChar ((n + 1) % 10)]

/-- Decimal rendering of a natural number, as a JavaScript template
literal renders it. -/
def natChars (n : Nat) : List Char :=
  if n = 0 then ['0'] else natCharsAux n n

/-- Reading the decimal rendering back (`parseNat`). -/
def parseNat (l : List Char) : Nat :=
  l.foldl (fun acc c => acc * 10 + charVal c) 0


/-! ## SSH connection parameters and safe echoes -/

/-- Connection parameters of a remote session, as assembled by the
`create_ssh` handler (credentials are JavaScript strings or absent). -/
structure SSHParams where
  host : String
  port : Nat
  username : String
  password : Option String
  privateKey : Option String
  passphrase : Option String
  term : String
  cols : Nat
  rows : Nat
deriving DecidableEq, Repr

/-- JavaScript truthiness of an optional string (`!!x`): absent and
empty strings are falsy. -/
def truthy : Option String → Bool
  | none => false
  | some s => !s.isEmpty

/-- The credential-stripped parameter echo (`getSafeParams`): by
construction this record has no password, private-key or passphrase
field, only booleans recording their presence. -/
structure SafeParams where
  host : String
  port : Nat
  username : String
  term : String
  hasPassword : Bool
  hasPrivateKey : Bool
deriving DecidableEq, Repr

/-- Embeds `SSHSessionManager.getSafeParams`. -/
def getSafeParams (p : SSHParams) : SafeParams :=
  { host := p.host, port := p.port, username := p.username, term := p.term,
    hasPassword := truthy p.password, hasPrivateKey := truthy p.privateKey }

/-! ## Frames produced by the gateway -/

/-- Frames the server writes back on the websocket (the ones the
claims mention). -/
inductive Frame where
  | terminalCreated (sessionId title : String) (isSandbox : Bool)
  | sshCreated (sessionId title : String) (params : SafeParams)
  | terminalExit (sessionId : String) (code : Int)
  | terminalClosed (sessionId : String)
  | sshClosed (sessionId : String)
  | errorFrame (msg : String)
deriving DecidableEq, Repr

/-! ## The SSH connection pool and session registry -/

/-- A pool entry (`SSHConnectionPool.connections` value):
`idleTimeout` is `none` when no idle-close timer is pending and
`some d` when a timer with duration `d` milliseconds is armed. -/
structure PoolEntry where
  refCount : Int
  params : SSHParams
  createdAt : Nat
  idleTimeout : Option Nat
deriving DecidableEq, Repr

/-- A remote session (`SSHSessionManager.sessions` value). -/
structure SessionInfo where
  params : SSHParams
  ws : String
  created : Nat
  lastActivity : Nat
deriving DecidableEq, Repr

/-- A remembered-params entry (`SessionStore` value): the full
parameter object spread together with a `savedAt` timestamp. -/
structure StoredParams where
  params : SSHParams
  savedAt : Nat
deriving DecidableEq, Repr

/-- An entry of the active-remote-sessions query result. -/
structure ActiveSessionEntry where
  sessionId : String
  params : SafeParams
  created : Nat
  lastActivity : Nat
deriving DecidableEq, Repr

/-- Combined state of `SSHConnectionPool`, `SSHSessionManager` and
`SessionStore`, plus the observable outputs: frames written to the
websocket, transports closed with `client.end()` (pool keys), and
bytes written to shell channels. -/
structure SSHState where
  connections : List (String × PoolEntry)
  sessions : List (String × SessionInfo)
  store : List (String × StoredParams)
  frames : List Frame
  closedTransports : List String
  writes : List (String × String)
deriving DecidableEq, Repr

/-- The empty initial state. -/
def emptySSH : SSHState :=
  { connections := [], sessions := [], store := [], frames := [],
    closedTransports := [], writes := [] }

namespace SSHConnectionPool

/-- Embeds `SSHConnectionPool.maxIdleTime`: five minutes in milliseconds. -/
def maxIdleTime : Nat := 5 * 60 * 1000

/-- Embeds `SSHConnectionPool.getConnectionKey`: the template literal
`host:port:username`. -/
def getConnectionKey (p : SSHParams) : String :=
  p.host ++ ":" ++ ⟨natChars p.port⟩ ++ ":" ++ p.username

/-- The acquire half of `getConnection`.  A present entry stands for a
live transport (the transport-close event deletes its entry, see
`transportCloseEvent`): it is reused, its idle timer cleared and its
reference count incremented.  Otherwise a fresh transport is
established; `connOk` tells whether establishment succeeds (`none`
models the rejected promise: nothing is inserted). -/
def acquire (p : SSHParams) (t : Nat) (connOk : Bool) (st : SSHState) : Option SSHState :=
  let key := getConnectionKey p
  match alookup key st.connections with
  | some e =>
      let e' : PoolEntry := { e with refCount := e.refCount + 1, idleTimeout := none }
      some { st with connections := aset key e' st.connections }
  | none =>
      if connOk then
        let e' : PoolEntry := { refCount := 1, params := p, createdAt := t, idleTimeout := none }
        some { st with connections := aset key e' st.connections }
      else none

/-- Embeds `SSHConnectionPool.releaseConnection`: decrement the reference
count; when it drops to zero or below, arm the idle-close timer. -/
def releaseConnection (p : SSHParams) (st : SSHState) : SSHState :=
  let key := getConnectionKey p
  match alookup key st.connections with
  | some e =>
      let r := e.refCount - 1
      let e' := if r ≤ 0 then { e with refCount := r, idleTimeout := some maxIdleTime }
                else { e with refCount := r }
      { st with connections := aset key e' st.connections }
  | none => st

/-- Expiry of an armed idle timer: `client.end()` then delete the
entry. -/
def idleExpire (key : String) (st : SSHState) : SSHState :=
  match alookup key st.connections with
  | some e =>
      if e.idleTimeout.isSome then
        { st with connections := aerase key st.connections,
                  closedTransports := st.closedTransports ++ [key] }
      else st
  | none => st

/-- The transport-level `close` event handler: the entry is removed
immediately; dependent sessions are untouched here. -/
def transportCloseEvent (key : String) (st : SSHState) : SSHState :=
  { st with connections := aerase key st.connections }

end SSHConnectionPool

namespace SSHSessionManager

open SSHConnectionPool

/-- Embeds `SSHSessionManager.createSession` fused with the `create_ssh`
handler's frame emission.  `connOk` models whether transport
establishment succeeds when a fresh one is needed, `shellOk` whether
`client.shell` opens the channel.  On shell failure the thrown error
reaches the handler, which emits an error frame; note that the
acquired pooled connection is NOT released on that path (the `catch`
block only rethrows). -/
def createSession (ws id : String) (p : SSHParams) (t : Nat) (connOk shellOk : Bool)
    (st : SSHState) : SSHState :=
  match acquire p t connOk st with
  | none =>
      { st with frames := st.frames ++ [Frame.errorFrame "Failed to create SSH session"] }
  | some st1 =>
      if shellOk then
        { st1 with
            sessions := aset id
              { params := p, ws := ws, created := t, lastActivity := t } st1.sessions,
            store := aset id { params := p, savedAt := t } st1.store,
            frames := st1.frames ++
              [Frame.sshCreated id (p.username ++ "@" ++ p.host) (getSafeParams p)] }
      else
        { st1 with frames := st1.frames ++ [Frame.errorFrame "Failed to create SSH session"] }

/-- Embeds `SSHSessionManager.duplicateSession` fused with the handler: clone
the original's parameters (credentials included) and create a new
session with them. -/
def duplicateSession (ws newId origId : String) (t : Nat) (connOk shellOk : Bool)
    (st : SSHState) : SSHState :=
  match alookup origId st.sessions with
  | some s => createSession ws newId s.params t connOk shellOk st
  | none =>
      { st with frames := st.frames ++ [Frame.errorFrame "Failed to duplicate SSH session"] }

/-- The parameters `reconnectSession` fetches from the store. -/
def reconnectParams (id : String) (st : SSHState) : Option SSHParams :=
  (alookup id st.store).map (fun sp => sp.params)

/-- Embeds `SSHSessionManager.reconnectSession` fused with the handler:
recreate the session from the persisted parameters, keeping the
original identifier. -/
def reconnectSession (ws id : String) (t : Nat) (connOk shellOk : Bool)
    (st : SSHState) : SSHState :=
  match reconnectParams id st with
  | some p => createSession ws id p t connOk shellOk st
  | none =>
      { st with frames := st.frames ++ [Frame.errorFrame "Failed to reconnect SSH session"] }

/-- Embeds `SSHSessionManager.closeSession`: end the channel, release the
pooled transport, delete the entry, notify the client (modelled with
the socket open). Unknown ids are a no-op. -/
def closeSession (id : String) (st : SSHState) : SSHState :=
  match alookup id st.sessions with
  | some s =>
      let st1 := releaseConnection s.params st
      { st1 with sessions := aerase id st1.sessions,
                 frames := st1.frames ++ [Frame.sshClosed id] }
  | none => st

/-- Embeds `SSHSessionManager.sendInput`: write to the channel and refresh
`lastActivity`; unknown ids are silently dropped. -/
def sendInput (id : String) (d : String) (t : Nat) (st : SSHState) : SSHState :=
  match alookup id st.sessions with
  | some s =>
      { st with sessions := aset id { s with lastActivity := t } st.sessions,
                writes := st.writes ++ [(id, d)] }
  | none => st

/-- Embeds `SSHSessionManager.resizeTerminal`: window-change plus recording
the new geometry; unknown ids are silently dropped. -/
def resizeTerminal (id : String) (cols rows : Nat) (st : SSHState) : SSHState :=
  match alookup id st.sessions with
  | some s =>
      let s' : SessionInfo := { s with params := { s.params with cols := cols, rows := rows } }
      { st with sessions := aset id s' st.sessions }
  | none => st

/-- Embeds `SSHSessionManager.getActiveSessions`. -/
def getActiveSessions (st : SSHState) : List ActiveSessionEntry :=
  st.sessions.map (fun x =>
    { sessionId := x.1, params := getSafeParams x.2.params,
      created := x.2.created, lastActivity := x.2.lastActivity })

end SSHSessionManager

/-- Embeds `SessionStore.persist` writes `JSON.stringify` of the map entries
verbatim — no encryption or transformation of any field — so we model
the written file by the list of entries it contains. -/
def persistFile (store : List (String × StoredParams)) : List (String × StoredParams) :=
  store

/-! ## Local and container terminals -/

/-- An entry of `TerminalManager.terminals`. -/
structure TermRec where
  title : String
  created : Nat
  cols : Nat
  rows : Nat
  kubeContext : Option String
  isSandbox : Bool
  containerId : Option String
  cwd : String
deriving DecidableEq, Repr

/-- An entry of `ContainerManager.containers` (keyed by the owning
session id). -/
structure ContainerRec where
  containerId : String
  containerName : String
  image : String
deriving DecidableEq, Repr

/-- State of `TerminalManager` and `ContainerManager`, plus the
observable outputs: frames written to the websocket, container-stop
commands issued (container names), pty kills (session ids) and bytes
written to pty processes. -/
structure TermState where
  terminals : List (String × TermRec)
  containers : List (String × ContainerRec)
  frames : List Frame
  stops : List String
  kills : List String
  writes : List (String × String)
deriving DecidableEq, Repr

/-- The empty initial state. -/
def emptyTerm : TermState :=
  { terminals := [], containers := [], frames := [], stops := [], kills := [], writes := [] }

namespace TerminalManager

/-- Embeds `ContainerManager.stopContainer`: look at the container record of
the given session id; with no record it logs and returns, otherwise it
issues a runtime stop of the container name and deletes the record. -/
def stopContainer (sid : String) (st : TermState) : TermState :=
  match alookup sid st.containers with
  | some c =>
      { st with stops := st.stops ++ [c.containerName],
                containers := aerase sid st.containers }
  | none => st

/-- Embeds `TerminalManager.cleanupTerminal`: kill the pty, then for a
sandbox terminal with a container id stop the session's container,
then delete the terminal (and client) entry.  Unknown ids are a
no-op. -/
def cleanupTerminal (id : String) (st : TermState) : TermState :=
  match alookup id st.terminals with
  | some tr =>
      let st1 := { st with kills := st.kills ++ [id] }
      let st2 := if tr.isSandbox && tr.containerId.isSome then stopContainer id st1 else st1
      { st2 with terminals := aerase id st2.terminals }
  | none => st

/-- The `close_terminal` case of the websocket handler: call
`cleanupTerminal` and then, unconditionally, send a `terminal_closed`
frame. -/
def handleCloseTerminal (id : String) (st : TermState) : TermState :=
  let st1 := cleanupTerminal id st
  { st1 with frames := st1.frames ++ [Frame.terminalClosed id] }

/-- The pty `exit` handler installed by `createTerminal`: clean the
terminal up and send a `terminal_exit` frame with the exit code
(modelled with the socket open). -/
def ptyExitEvent (id : String) (code : Int) (st : TermState) : TermState :=
  let st1 := cleanupTerminal id st
  { st1 with frames := st1.frames ++ [Frame.terminalExit id code] }

/-- Embeds `TerminalManager.cloneTerminal`: `none` models the thrown
`Original terminal not found`.  For a sandbox original a second exec
pty is spawned on the same container — the container map is not
touched and the new record carries the original's container id.  For a
plain terminal, `detectedCwd` is the best-effort working-directory
probe of the original's child process (`/proc` or `lsof`), falling
back to the tracked value. -/
def cloneTerminal (newId origId : String) (cols rows t : Nat) (detectedCwd : Option String)
    (st : TermState) : Option (TermState × String × Bool) :=
  match alookup origId st.terminals with
  | none => none
  | some orig =>
      if orig.isSandbox && orig.containerId.isSome then
        let nr : TermRec :=
          { title := orig.title ++ " (2)", created := t, cols := cols, rows := rows,
            kubeContext := none, isSandbox := true, containerId := orig.containerId,
            cwd := "/root" }
        some ({ st with terminals := aset newId nr st.terminals }, nr.title, true)
      else
        let nr : TermRec :=
          { title := orig.title ++ " (2)", created := t, cols := cols, rows := rows,
            kubeContext := orig.kubeContext, isSandbox := false, containerId := none,
            cwd := detectedCwd.getD orig.cwd }
        some ({ st with terminals := aset newId nr st.terminals }, nr.title, false)

/-- The terminal record `cloneTerminal` builds for a sandbox
duplicate: the original's container id is shared, the title gets the
duplication suffix, the working directory is the container shell
default. -/
def dupRec (orig : TermRec) (cols rows t : Nat) : TermRec :=
  { title := orig.title ++ " (2)", created := t, cols := cols, rows := rows,
    kubeContext := none, isSandbox := true, containerId := orig.containerId,
    cwd := "/root" }

/-- The `clone_terminal` case of the handler for non-SSH originals:
emit a `terminal_created` frame on success, an error frame when the
original is unknown. -/
def handleCloneTerminal (newId origId : String) (cols rows t : Nat)
    (detectedCwd : Option String) (st : TermState) : TermState :=
  match cloneTerminal newId origId cols rows t detectedCwd st with
  | some (st1, title, sandbox) =>
      { st1 with frames := st1.frames ++ [Frame.terminalCreated newId title sandbox] }
  | none =>
      { st with frames := st.frames ++ [Frame.errorFrame "Failed to clone terminal"] }

/-- Embeds `TerminalManager.sendInput`: write the bytes to the pty (the
deferred cwd refresh is a background probe that does not touch the
registry shape); unknown ids are silently dropped. -/
def sendInput (id : String) (d : String) (st : TermState) : TermState :=
  match alookup id st.terminals with
  | some _ => { st with writes := st.writes ++ [(id, d)] }
  | none => st

/-- Embeds `TerminalManager.resizeTerminal`: resize the pty and record the
geometry; unknown ids are silently dropped. -/
def resizeTerminal (id : String) (cols rows : Nat) (st : TermState) : TermState :=
  match alookup id st.terminals with
  | some tr =>
      let tr' : TermRec := { tr with cols := cols, rows := rows }
      { st with terminals := aset id tr' st.terminals }
  | none => st

end TerminalManager

/-! ## Concrete states used for counterexamples and witnesses -/

/-- A sample remote-connection parameter set. -/
def sampleParams : SSHParams :=
  { host := "h", port := 22, username := "u", password := some "pw",
    privateKey := none, passphrase := none, term := "xterm-256color",
    cols := 80, rows := 30 }

/-- State after one successful remote create for `sampleParams`. -/
def oneSessionSSH : SSHState :=
  SSHSessionManager.createSession "w" "s1" sampleParams 0 true true emptySSH

/-- The registry entry `oneSessionSSH` holds for session `s1`. -/
def sampleSession : SessionInfo :=
  { params := sampleParams, ws := "w", created := 0, lastActivity := 0 }

/-- The pool entry `oneSessionSSH` holds for the sample key. -/
def samplePoolEntry : PoolEntry :=
  { refCount := 1, params := sampleParams, createdAt := 0, idleTimeout := none }

/-- The remembered-params entry `oneSessionSSH` holds for `s1`. -/
def sampleStored : StoredParams :=
  { params := sampleParams, savedAt := 0 }

/-- State after a successful create for `sampleParams` followed by a
create whose shell-open fails. -/
def failedCreateSSH : SSHState :=
  SSHSessionManager.createSession "w" "s2" sampleParams 1 true false oneSessionSSH

/-- Same endpoint as `sampleParams` with a different password. -/
def sampleParamsAlt : SSHParams :=
  { host := "h", port := 22, username := "u", password := some "other-pw",
    privateKey := none, passphrase := none, term := "xterm-256color",
    cols := 80, rows := 30 }

/-- State after releasing the sample connection: its sole entry sits
at reference count zero with the idle timer armed. -/
def armedSSH : SSHState :=
  SSHConnectionPool.releaseConnection sampleParams oneSessionSSH

/-- The armed pool entry held by `armedSSH`. -/
def armedPoolEntry : PoolEntry :=
  { refCount := 0, params := sampleParams, createdAt := 0,
    idleTimeout := some SSHConnectionPool.maxIdleTime }

/-- An IPv6-style host whose colons collide with the key separators. -/
def colonParamsA : SSHParams :=
  { host := "::1", port := 22, username := "u", password := some "pw",
    privateKey := none, passphrase := none, term := "xterm-256color",
    cols := 80, rows := 30 }

/-- A different endpoint producing the same pool key as
`colonParamsA`. -/
def colonParamsB : SSHParams :=
  { host := ":", port := 1, username := "22:u", password := some "other",
    privateKey := none, passphrase := none, term := "xterm-256color",
    cols := 80, rows := 30 }

/-- A sandbox terminal record owning container `cid`. -/
def sandboxRec : TermRec :=
  { title := "Sandbox: alpine:latest", created := 0, cols := 80, rows := 30,
    kubeContext := none, isSandbox := true, containerId := some "cid",
    cwd := "/root" }

/-- The container record of the sandbox session `o`. -/
def sandboxContainer : ContainerRec :=
  { containerId := "cid", containerName := "ppterm-sandbox-o", image := "alpine:latest" }

/-- A terminal state with one sandbox session `o` owning the sole
container record. -/
def sandboxTerm : TermState :=
  { terminals := [("o", sandboxRec)], containers := [("o", sandboxContainer)],
    frames := [], stops := [], kills := [], writes := [] }

/-- A plain local terminal record. -/
def localRec : TermRec :=
  { title := "Terminal 1", created := 0, cols := 80, rows := 30,
    kubeContext := none, isSandbox := false, containerId := none, cwd := "/home/user" }

/-- A terminal state with the single local session `t1`. -/
def oneTermState : TermState :=
  { terminals := [("t1", localRec)], containers := [], frames := [], stops := [],
    kills := [], writes := [] }


/-! ## Library lemmas for the embedding -/

@[simp] theorem alookup_nil {α : Type} (k : String) : alookup k ([] : List (String × α)) = none := rfl

@[simp] theorem alookup_aset_self {α : Type} (k : String) (v : α) (l : List (String × α)) :
    alookup k (aset k v l) = some v := by
  induction l with
  | nil => simp [alookup, aset]
  | cons hd tl ih =>
      obtain ⟨k', v'⟩ := hd
      by_cases h : k' = k <;> simp [alookup, aset, h, ih]

@[simp] theorem alookup_aset_ne {α : Type} {k k' : String} (v : α) (l : List (String × α))
    (h : k' ≠ k) : alookup k' (aset k v l) = alookup k' l := by
  induction l with
  | nil => simp [alookup, aset, Ne.symm h]
  | cons hd tl ih =>
      obtain ⟨k'', v''⟩ := hd
      by_cases hk : k'' = k
      · subst hk
        simp [alookup, aset, Ne.symm h]
      · simp only [aset, if_neg hk, alookup]
        rw [ih]

theorem aerase_cons {α : Type} (k k' : String) (v' : α) (tl : List (String × α)) :
    aerase k ((k', v') :: tl) = if k' = k then aerase k tl else (k', v') :: aerase k tl := by
  by_cases h : k' = k <;> simp [aerase, List.filter_cons, h]

@[simp] theorem alookup_aerase_self {α : Type} (k : String) (l : List (String × α)) :
    alookup k (aerase k l) = none := by
  induction l with
  | nil => simp [aerase]
  | cons hd tl ih =>
      obtain ⟨k', v'⟩ := hd
      rw [aerase_cons]
      by_cases h : k' = k
      · simp [h, ih]
      · simp [alookup, h, ih]

@[simp] theorem alookup_aerase_ne {α : Type} {k k' : String} (l : List (String × α))
    (h : k' ≠ k) : alookup k' (aerase k l) = alookup k' l := by
  induction l with
  | nil => simp [aerase]
  | cons hd tl ih =>
      obtain ⟨k'', v''⟩ := hd
      rw [aerase_cons]
      by_cases hk : k'' = k
      · subst hk
        simp [alookup, Ne.symm h, ih]
      · by_cases hk' : k'' = k' <;> simp [alookup, hk, hk', h, ih]

theorem mem_aset_self {α : Type} (k : String) (v : α) (l : List (String × α)) :
    (k, v) ∈ aset k v l := by
  induction l with
  | nil => simp [aset]
  | cons hd tl ih =>
      obtain ⟨k', v'⟩ := hd
      by_cases h : k' = k <;> simp [aset, h, ih]

theorem charVal_digitChar {d : Nat} (h : d < 10) : charVal (digitChar d) = d := by
  interval_cases d <;> decide

theorem digitChar_ne_colon (d : Nat) : digitChar d ≠ ':' := by
  match d with
  | 0 | 1 | 2 | 3 | 4 | 5 | 6 | 7 | 8 | 9 => decide
  | n + 10 =>
      show '*' ≠ ':'
      decide

theorem parseNat_append_digit (xs : List Char) (c : Char) :
    parseNat (xs ++ [c]) = parseNat xs * 10 + charVal c := by
  simp [parseNat, List.foldl_append]

theorem parseNat_natCharsAux : ∀ fuel n, n ≤ fuel → parseNat (natCharsAux fuel n) = n := by
  intro fuel
  induction fuel with
  | zero =>
      intro n hn
      interval_cases n
      simp [natCharsAux, parseNat]
  | succ f ih =>
      intro n hn
      match n with
      | 0 => simp [natCharsAux, parseNat]
      | m + 1 =>
          have hdiv : (m + 1) / 10 ≤ f := by
            have := Nat.div_lt_self (Nat.succ_pos m) (by norm_num : (1 : Nat) < 10)
            omega
          rw [natCharsAux, parseNat_append_digit, ih _ hdiv,
            charVal_digitChar (Nat.mod_lt _ (by norm_num))]
          omega

theorem parseNat_natChars (n : Nat) : parseNat (natChars n) = n := by
  by_cases h : n = 0
  · subst h; decide
  · rw [natChars, if_neg h]
    exact parseNat_natCharsAux n n le_rfl

theorem natChars_injective {m n : Nat} (h : natChars m = natChars n) : m = n := by
  have := congrArg parseNat h
  rwa [parseNat_natChars, parseNat_natChars] at this

theorem natCharsAux_ne_colon : ∀ fuel n c, c ∈ natCharsAux fuel n → c ≠ ':' := by
  intro fuel
  induction fuel with
  | zero => intro n c hc; simp [natCharsAux] at hc
  | succ f ih =>
      intro n c hc
      match n with
      | 0 => simp [natCharsAux] at hc
      | m + 1 =>
          rw [natCharsAux] at hc
          rcases List.mem_append.mp hc with h1 | h2
          · exact ih _ _ h1
          · rcases List.mem_singleton.mp h2 with rfl
            exact digitChar_ne_colon _

theorem natChars_ne_colon (n : Nat) : ':' ∉ natChars n := by
  intro hc
  by_cases h : n = 0
  · subst h; simp [natChars] at hc
  · rw [natChars, if_neg h] at hc
    exact natCharsAux_ne_colon n n ':' hc rfl

/-- Splitting at a separator character is unambiguous when the left
part cannot contain the separator. -/
theorem append_colon_inj : ∀ (a a' b b' : List Char), ':' ∉ a → ':' ∉ a' →
    a ++ ':' :: b = a' ++ ':' :: b' → a = a' ∧ b = b' := by
  intro a
  induction a with
  | nil =>
      intro a' b b' _ ha' h
      match a' with
      | [] => simpa using h
      | c :: t =>
          simp only [List.nil_append, List.cons_append, List.cons.injEq] at h
          have hc : ':' ∈ c :: t := by rw [h.1]; exact List.mem_cons_self c t
          exact absurd hc ha'
  | cons c t ih =>
      intro a' b b' ha ha' h
      match a' with
      | [] =>
          simp only [List.cons_append, List.nil_append, List.cons.injEq] at h
          have hc : ':' ∈ c :: t := by rw [← h.1]; exact List.mem_cons_self c t
          exact absurd hc ha
      | c' :: t' =>
          simp only [List.cons_append, List.cons.injEq] at h
          obtain ⟨rfl, h2⟩ := h
          have := ih t' b b' (fun hm => ha (List.mem_cons_of_mem _ hm))
            (fun hm => ha' (List.mem_cons_of_mem _ hm)) h2
          exact ⟨by rw [this.1], this.2⟩

/-! ## Behaviour of the pool and registry operations -/

theorem acquire_hit {p : SSHParams} {st : SSHState} {e : PoolEntry} (t : Nat) (ok : Bool)
    (h : alookup (SSHConnectionPool.getConnectionKey p) st.connections = some e) :
    SSHConnectionPool.acquire p t ok st =
      some { st with
        connections := aset (SSHConnectionPool.getConnectionKey p)
            { e with refCount := e.refCount + 1, idleTimeout := none } st.connections } := by
  unfold SSHConnectionPool.acquire
  simp only [h]

theorem acquire_miss {p : SSHParams} {st : SSHState} (t : Nat)
    (h : alookup (SSHConnectionPool.getConnectionKey p) st.connections = none) :
    SSHConnectionPool.acquire p t true st =
      some { st with
        connections := aset (SSHConnectionPool.getConnectionKey p)
            { refCount := 1, params := p, createdAt := t, idleTimeout := none }
            st.connections } := by
  unfold SSHConnectionPool.acquire
  simp [h]

/-- A successful create (transport and shell both succeed) registers
the session, stores the parameters and emits the created frame; only
the pool differs between the reuse and fresh-transport cases. -/
theorem createSession_ok_fields (ws id : String) (p : SSHParams) (t : Nat) (st : SSHState) :
    (SSHSessionManager.createSession ws id p t true true st).sessions =
        aset id { params := p, ws := ws, created := t, lastActivity := t } st.sessions
    ∧ (SSHSessionManager.createSession ws id p t true true st).store =
        aset id { params := p, savedAt := t } st.store
    ∧ (SSHSessionManager.createSession ws id p t true true st).frames =
        st.frames ++ [Frame.sshCreated id (p.username ++ "@" ++ p.host) (getSafeParams p)]
    ∧ (SSHSessionManager.createSession ws id p t true true st).closedTransports =
        st.closedTransports := by
  unfold SSHSessionManager.createSession
  cases hl : alookup (SSHConnectionPool.getConnectionKey p) st.connections with
  | some e => rw [acquire_hit t true hl]; exact ⟨rfl, rfl, rfl, rfl⟩
  | none => rw [acquire_miss t hl]; exact ⟨rfl, rfl, rfl, rfl⟩

theorem releaseConnection_fields (p : SSHParams) (st : SSHState) :
    (SSHConnectionPool.releaseConnection p st).sessions = st.sessions ∧
      (SSHConnectionPool.releaseConnection p st).store = st.store ∧
      (SSHConnectionPool.releaseConnection p st).frames = st.frames ∧
      (SSHConnectionPool.releaseConnection p st).closedTransports = st.closedTransports := by
  unfold SSHConnectionPool.releaseConnection
  cases hl : alookup (SSHConnectionPool.getConnectionKey p) st.connections with
  | some e => simp [hl]
  | none => simp [hl]

theorem stopContainer_frames (sid : String) (st : TermState) :
    (TerminalManager.stopContainer sid st).frames = st.frames := by
  unfold TerminalManager.stopContainer
  cases alookup sid st.containers <;> rfl

theorem cleanupTerminal_frames (id : String) (st : TermState) :
    (TerminalManager.cleanupTerminal id st).frames = st.frames := by
  unfold TerminalManager.cleanupTerminal
  cases hl : alookup id st.terminals with
  | some tr =>
      simp only [hl]
      cases hb : tr.isSandbox && tr.containerId.isSome
      · simp [hb]
      · simp [hb, stopContainer_frames]
  | none => rfl

theorem stopContainer_kills (sid : String) (st : TermState) :
    (TerminalManager.stopContainer sid st).kills = st.kills := by
  unfold TerminalManager.stopContainer
  cases alookup sid st.containers <;> rfl

theorem cleanupTerminal_kills {id : String} {st : TermState} {tr : TermRec}
    (h : alookup id st.terminals = some tr) :
    (TerminalManager.cleanupTerminal id st).kills = st.kills ++ [id] := by
  unfold TerminalManager.cleanupTerminal
  simp only [h]
  cases hb : tr.isSandbox && tr.containerId.isSome
  · simp [hb]
  · simp [hb, stopContainer_kills]

/-- Closing an id absent from the registry does nothing. -/
theorem closeSession_unknown {id : String} {st : SSHState}
    (h : alookup id st.sessions = none) :
    SSHSessionManager.closeSession id st = st := by
  unfold SSHSessionManager.closeSession
  simp [h]

/-! ## C1 — pool reference count versus live remote sessions -/

/-- C1: the claimed invariant — for every pool key the entry's
reference count equals the number of live remote sessions mapping to
that key — is violated by the code.  Starting from the empty state, a
single `createSession` whose shell-channel open fails (after the
pooled transport was acquired) leaves the pool entry for the key at
reference count 1 while zero registered remote sessions map to that
key, because `createSession` rethrows without calling
`releaseConnection`. -/
theorem refcount_invariant_violated_by_failed_create :
    ((alookup (SSHConnectionPool.getConnectionKey sampleParams)
        (SSHSessionManager.createSession "w" "s1" sampleParams 0 true false
          emptySSH).connections).map (fun e => e.refCount) = some 1)
    ∧ ((SSHSessionManager.createSession "w" "s1" sampleParams 0 true false
          emptySSH).sessions.filter (fun x =>
            SSHConnectionPool.getConnectionKey x.2.params
              = SSHConnectionPool.getConnectionKey sampleParams)).length = 0 := by
  decide

/-! ## C2 — failed create must release the acquired transport -/

/-- C2: the claim — a create that acquired the pooled transport but
then fails to open the shell channel releases the transport, leaving
the reference count unchanged — is violated by the code.  After one
successful create (`oneSessionSSH`, reference count 1), a second
create for the same endpoint whose shell open fails leaves the
reference count at 2 (not 1): the `catch` block of `createSession`
rethrows without `releaseConnection`.  The failed create registers no
session and surfaces as an error frame. -/
theorem failed_create_leaks_pool_refcount :
    ((alookup (SSHConnectionPool.getConnectionKey sampleParams)
        oneSessionSSH.connections).map (fun e => e.refCount) = some 1)
    ∧ ((alookup (SSHConnectionPool.getConnectionKey sampleParams)
        failedCreateSSH.connections).map (fun e => e.refCount) = some 2)
    ∧ failedCreateSSH.sessions = oneSessionSSH.sessions
    ∧ failedCreateSSH.frames =
        oneSessionSSH.frames ++ [Frame.errorFrame "Failed to create SSH session"] := by
  decide

/-! ## C10 — credentials are persisted verbatim -/

/-- C10: every successful remote create stores the full parameter
object — password, private key and passphrase exactly as supplied —
in the remembered-params store under the session id, together with the
`savedAt` timestamp; the persisted file contains that entry verbatim
(`persist` is a plain serialization, no encryption); and a reconnect
fetches exactly those parameters back from the store. -/
theorem credentials_persisted_verbatim (st : SSHState) (ws id : String) (p : SSHParams)
    (t : Nat) :
    alookup id (SSHSessionManager.createSession ws id p t true true st).store
        = some { params := p, savedAt := t }
    ∧ (id, ({ params := p, savedAt := t } : StoredParams))
        ∈ persistFile (SSHSessionManager.createSession ws id p t true true st).store
    ∧ SSHSessionManager.reconnectParams id
        (SSHSessionManager.createSession ws id p t true true st) = some p := by
  obtain ⟨-, hstore, -, -⟩ := createSession_ok_fields ws id p t st
  refine ⟨?_, ?_, ?_⟩
  · rw [hstore]; exact alookup_aset_self id _ st.store
  · rw [hstore]; exact mem_aset_self id _ st.store
  · unfold SSHSessionManager.reconnectParams
    rw [hstore, alookup_aset_self]
    rfl

/-! ## C8 — unknown input and resize are silently dropped -/

/-- C8: `input`, `resize`, `ssh_input` and `ssh_resize` messages whose
session id is not in the corresponding registry leave the whole state
unchanged — in particular no frame is emitted and the registries are
untouched. -/
theorem unknown_input_resize_silently_dropped (ts : TermState) (id d : String)
    (cols rows t : Nat) (st : SSHState) (sid sd : String)
    (h1 : alookup id ts.terminals = none) (h2 : alookup sid st.sessions = none) :
    TerminalManager.sendInput id d ts = ts
    ∧ TerminalManager.resizeTerminal id cols rows ts = ts
    ∧ SSHSessionManager.sendInput sid sd t st = st
    ∧ SSHSessionManager.resizeTerminal sid cols rows st = st := by
  refine ⟨?_, ?_, ?_, ?_⟩
  · unfold TerminalManager.sendInput
    simp [h1]
  · unfold TerminalManager.resizeTerminal
    simp [h1]
  · unfold SSHSessionManager.sendInput
    simp [h2]
  · unfold SSHSessionManager.resizeTerminal
    simp [h2]

/-- Witness for C8 at concrete unknown ids on the empty states. -/
theorem unknown_input_resize_silently_dropped_witness :
    TerminalManager.sendInput "z" "ls" emptyTerm = emptyTerm
    ∧ TerminalManager.resizeTerminal "z" 120 40 emptyTerm = emptyTerm
    ∧ SSHSessionManager.sendInput "z" "ls" 7 emptySSH = emptySSH
    ∧ SSHSessionManager.resizeTerminal "z" 120 40 emptySSH = emptySSH :=
  unknown_input_resize_silently_dropped emptyTerm "z" "ls" 120 40 7 emptySSH "z" "ls"
    (by decide) (by decide)

/-! ## C9 — explicit close produces both a closed and an exit frame -/

/-- C9: for a known session, an explicit `close_terminal` kills the
child process and immediately emits `terminal_closed`; when the killed
child's exit event then fires, the exit handler emits `terminal_exit`
with the code (the second cleanup is a no-op).  The client therefore
receives two notifications for the session, not one. -/
theorem explicit_close_emits_closed_then_exit (st : TermState) (id : String) (tr : TermRec)
    (code : Int) (h : alookup id st.terminals = some tr) :
    (TerminalManager.handleCloseTerminal id st).kills = st.kills ++ [id]
    ∧ (TerminalManager.ptyExitEvent id code
        (TerminalManager.handleCloseTerminal id st)).frames
        = st.frames ++ [Frame.terminalClosed id, Frame.terminalExit id code] := by
  constructor
  · unfold TerminalManager.handleCloseTerminal
    simp [cleanupTerminal_kills h]
  · unfold TerminalManager.ptyExitEvent TerminalManager.handleCloseTerminal
    simp [cleanupTerminal_frames]

/-- Witness for C9: closing the known local session `t1` and firing
its exit event yields exactly the two frames. -/
theorem explicit_close_emits_closed_then_exit_witness :
    (TerminalManager.handleCloseTerminal "t1" oneTermState).kills
        = oneTermState.kills ++ ["t1"]
    ∧ (TerminalManager.ptyExitEvent "t1" 0
        (TerminalManager.handleCloseTerminal "t1" oneTermState)).frames
        = oneTermState.frames ++ [Frame.terminalClosed "t1", Frame.terminalExit "t1" 0] :=
  explicit_close_emits_closed_then_exit oneTermState "t1" localRec 0 (by decide)

/-! ## C3 — close-request idempotence -/

/-- C3 counterexample: the claim says a close request for an id absent
from the registry produces no close frame, but a `close_terminal` for
the unknown id `ghost` on the empty state emits a `terminal_closed`
frame — the handler sends it unconditionally after `cleanupTerminal`. -/
theorem unknown_close_terminal_emits_frame :
    (TerminalManager.handleCloseTerminal "ghost" emptyTerm).frames
      = [Frame.terminalClosed "ghost"] := by
  decide

/-- C3 (amended): `close_ssh` behaves as claimed — on an unknown id it
is a no-op producing no frame, and two consecutive `close_ssh`
requests for the same known id produce exactly one `ssh_closed` frame.
`close_terminal`, by contrast, always emits exactly one
`terminal_closed` frame per request, whether or not the id is known,
so an unknown-id `close_terminal` emits a frame and two consecutive
`close_terminal` requests emit two. -/
theorem close_request_frame_semantics (st : SSHState) (id : String) (s : SessionInfo)
    (st2 : SSHState) (id2 : String) (ts : TermState) (tid : String)
    (h : alookup id st.sessions = some s)
    (h2 : alookup id2 st2.sessions = none) :
    SSHSessionManager.closeSession id2 st2 = st2
    ∧ (SSHSessionManager.closeSession id (SSHSessionManager.closeSession id st)).frames
        = st.frames ++ [Frame.sshClosed id]
    ∧ (TerminalManager.handleCloseTerminal tid ts).frames
        = ts.frames ++ [Frame.terminalClosed tid] := by
  refine ⟨closeSession_unknown h2, ?_, ?_⟩
  · have hs : (SSHSessionManager.closeSession id st).sessions = aerase id st.sessions := by
      unfold SSHSessionManager.closeSession
      simp [h, (releaseConnection_fields s.params st).1]
    have hf : (SSHSessionManager.closeSession id st).frames
        = st.frames ++ [Frame.sshClosed id] := by
      unfold SSHSessionManager.closeSession
      simp [h, (releaseConnection_fields s.params st).2.2.1]
    have hnone : alookup id (SSHSessionManager.closeSession id st).sessions = none := by
      rw [hs]
      exact alookup_aerase_self id st.sessions
    rw [closeSession_unknown hnone, hf]
  · unfold TerminalManager.handleCloseTerminal
    simp [cleanupTerminal_frames]

/-- Witness for C3 (amended) at concrete states: unknown `close_ssh`
on the empty state, double `close_ssh` of the known session `s1`, and
a `close_terminal`. -/
theorem close_request_frame_semantics_witness :
    SSHSessionManager.closeSession "z" emptySSH = emptySSH
    ∧ (SSHSessionManager.closeSession "s1"
        (SSHSessionManager.closeSession "s1" oneSessionSSH)).frames
        = oneSessionSSH.frames ++ [Frame.sshClosed "s1"]
    ∧ (TerminalManager.handleCloseTerminal "t9" emptyTerm).frames
        = emptyTerm.frames ++ [Frame.terminalClosed "t9"] :=
  close_request_frame_semantics oneSessionSSH "s1" sampleSession emptySSH "z" emptyTerm "t9"
    (by decide) (by decide)

/-! ## C7 — container duplication shares the original's container -/

theorem cleanup_shared_sandbox {id : String} {st : TermState} {tr : TermRec}
    (h : alookup id st.terminals = some tr)
    (hb : (tr.isSandbox && tr.containerId.isSome) = true)
    (hc : alookup id st.containers = none) :
    TerminalManager.cleanupTerminal id st =
      { st with kills := st.kills ++ [id], terminals := aerase id st.terminals } := by
  unfold TerminalManager.cleanupTerminal TerminalManager.stopContainer
  simp [h, hb, hc]

theorem cleanup_owned_sandbox {id : String} {st : TermState} {tr : TermRec} {c : ContainerRec}
    (h : alookup id st.terminals = some tr)
    (hb : (tr.isSandbox && tr.containerId.isSome) = true)
    (hc : alookup id st.containers = some c) :
    TerminalManager.cleanupTerminal id st =
      { st with kills := st.kills ++ [id], stops := st.stops ++ [c.containerName],
                containers := aerase id st.containers,
                terminals := aerase id st.terminals } := by
  unfold TerminalManager.cleanupTerminal TerminalManager.stopContainer
  simp [h, hb, hc]

theorem handleClose_shared_sandbox {id : String} {st : TermState} {tr : TermRec}
    (h : alookup id st.terminals = some tr)
    (hb : (tr.isSandbox && tr.containerId.isSome) = true)
    (hc : alookup id st.containers = none) :
    TerminalManager.handleCloseTerminal id st =
      { st with kills := st.kills ++ [id], terminals := aerase id st.terminals,
                frames := st.frames ++ [Frame.terminalClosed id] } := by
  unfold TerminalManager.handleCloseTerminal
  rw [cleanup_shared_sandbox h hb hc]

theorem handleClose_owned_sandbox {id : String} {st : TermState} {tr : TermRec}
    {c : ContainerRec}
    (h : alookup id st.terminals = some tr)
    (hb : (tr.isSandbox && tr.containerId.isSome) = true)
    (hc : alookup id st.containers = some c) :
    TerminalManager.handleCloseTerminal id st =
      { st with kills := st.kills ++ [id], stops := st.stops ++ [c.containerName],
                containers := aerase id st.containers,
                terminals := aerase id st.terminals,
                frames := st.frames ++ [Frame.terminalClosed id] } := by
  unfold TerminalManager.handleCloseTerminal
  rw [cleanup_owned_sandbox h hb hc]

theorem clone_sandbox_eq {newId origId : String} {st : TermState} {orig : TermRec}
    (cols rows t : Nat)
    (ho : alookup origId st.terminals = some orig)
    (hb : (orig.isSandbox && orig.containerId.isSome) = true) :
    TerminalManager.handleCloneTerminal newId origId cols rows t none st =
      { st with
        terminals := aset newId (TerminalManager.dupRec orig cols rows t) st.terminals,
        frames := st.frames ++ [Frame.terminalCreated newId (orig.title ++ " (2)") true] } := by
  unfold TerminalManager.handleCloneTerminal TerminalManager.cloneTerminal
    TerminalManager.dupRec
  simp [ho, hb]

/-- C7: duplicating a container-kind session (`st1` is the state
after the duplication, `st2` after closing the duplicate, `st3` after
closing the original) creates no container record — the container map
and the stop log are unchanged; the duplicate references the
original's container; closing the duplicate stops no container and
keeps the original's record; and only closing the original issues the
container stop and removes the sole record — so the container's
lifetime is tied to the original session. -/
theorem container_duplicate_shares_container
    (st st1 st2 st3 : TermState) (origId newId : String)
    (orig : TermRec) (c : ContainerRec) (cols rows t : Nat)
    (ho : alookup origId st.terminals = some orig)
    (hsb : orig.isSandbox = true) (hcid : orig.containerId.isSome = true)
    (hc : alookup origId st.containers = some c)
    (hnc : alookup newId st.containers = none)
    (hne : newId ≠ origId)
    (hst1 : st1 = TerminalManager.handleCloneTerminal newId origId cols rows t none st)
    (hst2 : st2 = TerminalManager.handleCloseTerminal newId st1)
    (hst3 : st3 = TerminalManager.handleCloseTerminal origId st2) :
    st1.containers = st.containers
    ∧ st1.stops = st.stops
    ∧ (alookup newId st1.terminals).map (fun r => r.containerId) = some orig.containerId
    ∧ st2.stops = st.stops
    ∧ alookup origId st2.containers = some c
    ∧ st3.stops = st.stops ++ [c.containerName]
    ∧ alookup origId st3.containers = none := by
  have hb : (orig.isSandbox && orig.containerId.isSome) = true := by
    simp [hsb, hcid]
  rw [clone_sandbox_eq cols rows t ho hb] at hst1
  have h1term : st1.terminals = aset newId (TerminalManager.dupRec orig cols rows t)
      st.terminals := by rw [hst1]
  have h1cont : st1.containers = st.containers := by rw [hst1]
  have h1stops : st1.stops = st.stops := by rw [hst1]
  have hlook1 : alookup newId st1.terminals
      = some (TerminalManager.dupRec orig cols rows t) := by
    rw [h1term]
    exact alookup_aset_self _ _ _
  have hb1 : ((TerminalManager.dupRec orig cols rows t).isSandbox &&
      (TerminalManager.dupRec orig cols rows t).containerId.isSome) = true := by
    simp [TerminalManager.dupRec, hcid]
  have hc1 : alookup newId st1.containers = none := by
    rw [h1cont]
    exact hnc
  rw [handleClose_shared_sandbox hlook1 hb1 hc1] at hst2
  have h2term : st2.terminals = aerase newId st1.terminals := by rw [hst2]
  have h2cont : st2.containers = st1.containers := by rw [hst2]
  have h2stops : st2.stops = st1.stops := by rw [hst2]
  have hlook2 : alookup origId st2.terminals = some orig := by
    rw [h2term, h1term, alookup_aerase_ne _ (Ne.symm hne),
      alookup_aset_ne _ _ (Ne.symm hne)]
    exact ho
  have hc2 : alookup origId st2.containers = some c := by
    rw [h2cont, h1cont]
    exact hc
  rw [handleClose_owned_sandbox hlook2 hb hc2] at hst3
  have h3stops : st3.stops = st2.stops ++ [c.containerName] := by rw [hst3]
  have h3cont : st3.containers = aerase origId st2.containers := by rw [hst3]
  refine ⟨h1cont, h1stops, ?_, h2stops.trans h1stops, hc2, ?_, ?_⟩
  · rw [hlook1]
    rfl
  · rw [h3stops, h2stops, h1stops]
  · rw [h3cont]
    exact alookup_aerase_self origId st2.containers

/-- Witness for C7: duplicating the sandbox session `o` (container
record `sandboxContainer`) as `n`, then closing `n`, then closing
`o`. -/
theorem container_duplicate_shares_container_witness :
    (TerminalManager.handleCloneTerminal "n" "o" 80 24 1 none sandboxTerm).containers
        = sandboxTerm.containers
    ∧ (TerminalManager.handleCloneTerminal "n" "o" 80 24 1 none sandboxTerm).stops
        = sandboxTerm.stops
    ∧ (alookup "n"
        (TerminalManager.handleCloneTerminal "n" "o" 80 24 1 none sandboxTerm).terminals).map
          (fun r => r.containerId) = some sandboxRec.containerId
    ∧ (TerminalManager.handleCloseTerminal "n"
        (TerminalManager.handleCloneTerminal "n" "o" 80 24 1 none sandboxTerm)).stops
        = sandboxTerm.stops
    ∧ alookup "o" (TerminalManager.handleCloseTerminal "n"
        (TerminalManager.handleCloneTerminal "n" "o" 80 24 1 none sandboxTerm)).containers
        = some sandboxContainer
    ∧ (TerminalManager.handleCloseTerminal "o"
        (TerminalManager.handleCloseTerminal "n"
          (TerminalManager.handleCloneTerminal "n" "o" 80 24 1 none sandboxTerm))).stops
        = sandboxTerm.stops ++ [sandboxContainer.containerName]
    ∧ alookup "o" (TerminalManager.handleCloseTerminal "o"
        (TerminalManager.handleCloseTerminal "n"
          (TerminalManager.handleCloneTerminal "n" "o" 80 24 1 none sandboxTerm))).containers
        = none :=
  container_duplicate_shares_container sandboxTerm
    (TerminalManager.handleCloneTerminal "n" "o" 80 24 1 none sandboxTerm)
    (TerminalManager.handleCloseTerminal "n"
      (TerminalManager.handleCloneTerminal "n" "o" 80 24 1 none sandboxTerm))
    (TerminalManager.handleCloseTerminal "o"
      (TerminalManager.handleCloseTerminal "n"
        (TerminalManager.handleCloneTerminal "n" "o" 80 24 1 none sandboxTerm)))
    "o" "n" sandboxRec sandboxContainer 80 24 1
    (by decide) (by decide) (by decide) (by decide) (by decide) (by decide) rfl rfl rfl

/-! ## C6 — release, idle timer, expiry and re-acquire -/

/-- C6: `releaseConnection` decrements the reference count and, when
the result is zero (or below), arms the idle-close timer of five
minutes (`maxIdleTime` = 300000 ms) while keeping the entry; expiry of
an armed timer ends the transport and removes the entry; and an
acquire for the same key that finds the transport live (a create
reusing the pooled entry) disarms any pending timer and increments the
count without closing the transport. -/
theorem release_decrements_and_arms_idle (st st2 st3 : SSHState) (p : SSHParams)
    (e e2 e3 : PoolEntry) (d : Nat) (ws id : String) (t : Nat)
    (he : alookup (SSHConnectionPool.getConnectionKey p) st.connections = some e)
    (he2 : alookup (SSHConnectionPool.getConnectionKey p) st2.connections = some e2)
    (hd : e2.idleTimeout = some d)
    (he3 : alookup (SSHConnectionPool.getConnectionKey p) st3.connections = some e3) :
    SSHConnectionPool.maxIdleTime = 5 * 60 * 1000
    ∧ SSHConnectionPool.releaseConnection p st =
        { st with
          connections := aset (SSHConnectionPool.getConnectionKey p)
              (if e.refCount - 1 ≤ 0 then
                { e with refCount := e.refCount - 1,
                         idleTimeout := some SSHConnectionPool.maxIdleTime }
               else { e with refCount := e.refCount - 1 }) st.connections }
    ∧ SSHConnectionPool.idleExpire (SSHConnectionPool.getConnectionKey p) st2 =
        { st2 with
          connections := aerase (SSHConnectionPool.getConnectionKey p) st2.connections,
          closedTransports := st2.closedTransports
              ++ [SSHConnectionPool.getConnectionKey p] }
    ∧ (SSHSessionManager.createSession ws id p t true true st3).connections =
        aset (SSHConnectionPool.getConnectionKey p)
          { e3 with refCount := e3.refCount + 1, idleTimeout := none } st3.connections
    ∧ (SSHSessionManager.createSession ws id p t true true st3).closedTransports =
        st3.closedTransports := by
  refine ⟨rfl, ?_, ?_, ?_, ?_⟩
  · unfold SSHConnectionPool.releaseConnection
    simp [he]
  · unfold SSHConnectionPool.idleExpire
    simp [he2, hd]
  · unfold SSHSessionManager.createSession
    rw [acquire_hit t true he3]
    rfl
  · unfold SSHSessionManager.createSession
    rw [acquire_hit t true he3]
    rfl

/-- Witness for C6: releasing the sample connection (count 1 → 0 arms
the timer), expiring the armed timer, and re-acquiring the live
entry. -/
theorem release_decrements_and_arms_idle_witness :
    SSHConnectionPool.maxIdleTime = 5 * 60 * 1000
    ∧ SSHConnectionPool.releaseConnection sampleParams oneSessionSSH =
        { oneSessionSSH with
          connections := aset (SSHConnectionPool.getConnectionKey sampleParams)
              (if samplePoolEntry.refCount - 1 ≤ 0 then
                { samplePoolEntry with refCount := samplePoolEntry.refCount - 1,
                                       idleTimeout := some SSHConnectionPool.maxIdleTime }
               else { samplePoolEntry with refCount := samplePoolEntry.refCount - 1 })
              oneSessionSSH.connections }
    ∧ SSHConnectionPool.idleExpire (SSHConnectionPool.getConnectionKey sampleParams)
        armedSSH =
        { armedSSH with
          connections := aerase (SSHConnectionPool.getConnectionKey sampleParams)
              armedSSH.connections,
          closedTransports := armedSSH.closedTransports
              ++ [SSHConnectionPool.getConnectionKey sampleParams] }
    ∧ (SSHSessionManager.createSession "w2" "s9" sampleParams 5 true true
        oneSessionSSH).connections =
        aset (SSHConnectionPool.getConnectionKey sampleParams)
          { samplePoolEntry with refCount := samplePoolEntry.refCount + 1,
                                 idleTimeout := none } oneSessionSSH.connections
    ∧ (SSHSessionManager.createSession "w2" "s9" sampleParams 5 true true
        oneSessionSSH).closedTransports = oneSessionSSH.closedTransports :=
  release_decrements_and_arms_idle oneSessionSSH armedSSH oneSessionSSH sampleParams
    samplePoolEntry armedPoolEntry samplePoolEntry SSHConnectionPool.maxIdleTime "w2" "s9" 5
    (by decide) (by decide) (by decide) (by decide)

/-! ## C4 — created frames and session listings strip credentials -/

/-- C4: the parameter echo in every `ssh_created` frame — from create,
duplicate and reconnect — and every entry of the active-sessions query
is `getSafeParams` of the session's parameters: a record with only
host, port, username, terminal type and boolean presence flags, no
password, private-key or passphrase value.  `getSafeParams` depends on
the credentials only through their presence: parameter sets agreeing
on the public fields and on credential presence produce identical safe
echoes. -/
theorem created_frames_strip_credentials (p q : SSHParams) (st : SSHState)
    (ws newId : String) (t : Nat) (origId : String) (s : SessionInfo)
    (rid : String) (sp : StoredParams)
    (hs : alookup origId st.sessions = some s)
    (hr : alookup rid st.store = some sp)
    (hhost : p.host = q.host) (hport : p.port = q.port)
    (husr : p.username = q.username) (hterm : p.term = q.term)
    (hpw : truthy p.password = truthy q.password)
    (hpk : truthy p.privateKey = truthy q.privateKey) :
    getSafeParams p = { host := p.host, port := p.port, username := p.username,
                        term := p.term, hasPassword := truthy p.password,
                        hasPrivateKey := truthy p.privateKey }
    ∧ getSafeParams p = getSafeParams q
    ∧ (SSHSessionManager.createSession ws newId p t true true st).frames =
        st.frames ++ [Frame.sshCreated newId (p.username ++ "@" ++ p.host)
          (getSafeParams p)]
    ∧ (SSHSessionManager.duplicateSession ws newId origId t true true st).frames =
        st.frames ++ [Frame.sshCreated newId (s.params.username ++ "@" ++ s.params.host)
          (getSafeParams s.params)]
    ∧ (SSHSessionManager.reconnectSession ws rid t true true st).frames =
        st.frames ++ [Frame.sshCreated rid (sp.params.username ++ "@" ++ sp.params.host)
          (getSafeParams sp.params)]
    ∧ SSHSessionManager.getActiveSessions st = st.sessions.map (fun x =>
        { sessionId := x.1, params := getSafeParams x.2.params, created := x.2.created,
          lastActivity := x.2.lastActivity }) := by
  refine ⟨rfl, ?_, ?_, ?_, ?_, rfl⟩
  · unfold getSafeParams
    rw [hhost, hport, husr, hterm, hpw, hpk]
  · exact (createSession_ok_fields ws newId p t st).2.2.1
  · unfold SSHSessionManager.duplicateSession
    rw [hs]
    exact (createSession_ok_fields ws newId s.params t st).2.2.1
  · unfold SSHSessionManager.reconnectSession SSHSessionManager.reconnectParams
    rw [hr]
    exact (createSession_ok_fields ws rid sp.params t st).2.2.1

/-- Witness for C4 on `oneSessionSSH` (which holds session `s1` and a
stored entry for it), with `sampleParamsAlt` differing from
`sampleParams` only in the password value. -/
theorem created_frames_strip_credentials_witness :
    getSafeParams sampleParams =
        { host := sampleParams.host, port := sampleParams.port,
          username := sampleParams.username, term := sampleParams.term,
          hasPassword := truthy sampleParams.password,
          hasPrivateKey := truthy sampleParams.privateKey }
    ∧ getSafeParams sampleParams = getSafeParams sampleParamsAlt
    ∧ (SSHSessionManager.createSession "w2" "s5" sampleParams 3 true true
        oneSessionSSH).frames =
        oneSessionSSH.frames ++ [Frame.sshCreated "s5"
          (sampleParams.username ++ "@" ++ sampleParams.host) (getSafeParams sampleParams)]
    ∧ (SSHSessionManager.duplicateSession "w2" "s5" "s1" 3 true true
        oneSessionSSH).frames =
        oneSessionSSH.frames ++ [Frame.sshCreated "s5"
          (sampleSession.params.username ++ "@" ++ sampleSession.params.host)
          (getSafeParams sampleSession.params)]
    ∧ (SSHSessionManager.reconnectSession "w2" "s1" 3 true true oneSessionSSH).frames =
        oneSessionSSH.frames ++ [Frame.sshCreated "s1"
          (sampleStored.params.username ++ "@" ++ sampleStored.params.host)
          (getSafeParams sampleStored.params)]
    ∧ SSHSessionManager.getActiveSessions oneSessionSSH =
        oneSessionSSH.sessions.map (fun x =>
          { sessionId := x.1, params := getSafeParams x.2.params, created := x.2.created,
            lastActivity := x.2.lastActivity }) :=
  created_frames_strip_credentials sampleParams sampleParamsAlt oneSessionSSH "w2" "s5" 3
    "s1" sampleSession "s1" sampleStored (by decide) (by decide) rfl rfl rfl rfl
    (by decide) (by decide)

/-! ## C5 — the pool key and its (non-)injectivity -/

theorem string_data_append (s u : String) : (s ++ u).data = s.data ++ u.data := rfl

theorem str_ext {s u : String} (h : s.data = u.data) : s = u := by
  cases s
  cases u
  exact congrArg String.mk h

/-- The character list of the pool key, separator-explicit. -/
theorem getConnectionKey_data (p : SSHParams) :
    (SSHConnectionPool.getConnectionKey p).data =
      p.host.data ++ ':' :: (natChars p.port ++ ':' :: p.username.data) := by
  show (p.host ++ ":" ++ (⟨natChars p.port⟩ : String) ++ ":" ++ p.username).data = _
  simp only [string_data_append, List.append_assoc]
  rfl

/-- C5 counterexample: the claim says two parameter sets map to the
same pool key only if they agree on host, port and username, but
`colonParamsA` (host `::1`, port 22, user `u`) and `colonParamsB`
(host `:`, port 1, user `22:u`) produce the same key `::1:22:u` while
their hosts differ — the template-literal key is not injective when a
host contains a colon (as every IPv6 address does). -/
theorem pool_key_collision :
    SSHConnectionPool.getConnectionKey colonParamsA
      = SSHConnectionPool.getConnectionKey colonParamsB
    ∧ colonParamsA.host ≠ colonParamsB.host := by
  decide

/-- C5 (amended): parameter sets agreeing on host, port and username
always map to the same pool key — credentials are not part of the key;
the converse holds provided the hosts contain no colon (the separator
of the template literal).  A create that finds a live
pooled entry for its key reuses that entry — its reference count is
bumped in place and no transport is closed — so two sessions to the
same (host, port, username) with any credentials share one pooled
transport while the first transport is live. -/
theorem pool_key_amended (p q : SSHParams) (st : SSHState) (e : PoolEntry)
    (ws id : String) (t : Nat)
    (he : alookup (SSHConnectionPool.getConnectionKey q) st.connections = some e) :
    ((p.host = q.host ∧ p.port = q.port ∧ p.username = q.username) →
      SSHConnectionPool.getConnectionKey p = SSHConnectionPool.getConnectionKey q)
    ∧ (':' ∉ p.host.data → ':' ∉ q.host.data →
        SSHConnectionPool.getConnectionKey p = SSHConnectionPool.getConnectionKey q →
        p.host = q.host ∧ p.port = q.port ∧ p.username = q.username)
    ∧ (SSHSessionManager.createSession ws id q t true true st).connections =
        aset (SSHConnectionPool.getConnectionKey q)
          { e with refCount := e.refCount + 1, idleTimeout := none } st.connections
    ∧ (SSHSessionManager.createSession ws id q t true true st).closedTransports =
        st.closedTransports := by
  refine ⟨?_, ?_, ?_, ?_⟩
  · rintro ⟨h1, h2, h3⟩
    unfold SSHConnectionPool.getConnectionKey
    rw [h1, h2, h3]
  · intro hph hqh hkey
    have hdata := congrArg String.data hkey
    rw [getConnectionKey_data, getConnectionKey_data] at hdata
    obtain ⟨hh, hrest⟩ := append_colon_inj _ _ _ _ hph hqh hdata
    obtain ⟨hp2, hu⟩ := append_colon_inj _ _ _ _
      (natChars_ne_colon p.port) (natChars_ne_colon q.port) hrest
    exact ⟨str_ext hh, natChars_injective hp2, str_ext hu⟩
  · unfold SSHSessionManager.createSession
    rw [acquire_hit t true he]
    rfl
  · unfold SSHSessionManager.createSession
    rw [acquire_hit t true he]
    rfl

/-- Witness for C5 (amended): `sampleParams` and `sampleParamsAlt`
agree on (host, port, username), differ in password, and share the
live pooled entry of `oneSessionSSH`. -/
theorem pool_key_amended_witness :
    ((sampleParams.host = sampleParamsAlt.host
        ∧ sampleParams.port = sampleParamsAlt.port
        ∧ sampleParams.username = sampleParamsAlt.username) →
      SSHConnectionPool.getConnectionKey sampleParams
        = SSHConnectionPool.getConnectionKey sampleParamsAlt)
    ∧ (':' ∉ sampleParams.host.data → ':' ∉ sampleParamsAlt.host.data →
        SSHConnectionPool.getConnectionKey sampleParams
          = SSHConnectionPool.getConnectionKey sampleParamsAlt →
        sampleParams.host = sampleParamsAlt.host
          ∧ sampleParams.port = sampleParamsAlt.port
          ∧ sampleParams.username = sampleParamsAlt.username)
    ∧ (SSHSessionManager.createSession "w2" "s6" sampleParamsAlt 4 true true
        oneSessionSSH).connections =
        aset (SSHConnectionPool.getConnectionKey sampleParamsAlt)
          { samplePoolEntry with refCount := samplePoolEntry.refCount + 1,
                                 idleTimeout := none } oneSessionSSH.connections
    ∧ (SSHSessionManager.createSession "w2" "s6" sampleParamsAlt 4 true true
        oneSessionSSH).closedTransports = oneSessionSSH.closedTransports :=
  pool_key_amended sampleParams sampleParamsAlt oneSessionSSH samplePoolEntry "w2" "s6" 4
    (by decide)

end PPTerm
